import Mathlib

/-!
Verification of the `SquadReader` dataset-ingestion component
(`src/allennlp/data/dataset_readers/reading_comprehension/squad.py`)
against its natural-language specification.

The data model and the two operations `_read` and `text_to_instance` are
shallowly embedded below.  External collaborators (the tokenizer, the JSON
line parser `json.loads`) are passed in as function parameters; the
framework utility `util.make_reading_comprehension_instance`, which is
repository code not present under `src/`, is modelled from the spec.
-/

namespace BinQua

/-- A token produced by the external tokenizer: its text and its character
offset in the source string (the tokenizer itself is an external
collaborator, so tokens are only ever consumed read-only here). -/
structure Token where
  text : String
  idx : Nat
deriving DecidableEq, Repr

/-- One corpus record of the flat JSONL shape actually read by `_read`:
fields `answer`, `passage`, `question`, `title`.  The `answer` field is a
general value passed through opaquely; it is modelled as a string. -/
structure Record where
  answer : String
  passage : String
  question : String
  title : String
deriving DecidableEq, Repr

/-- Modelled from the spec: the framework-defined TrainingExample produced
by `util.make_reading_comprehension_instance` (repository code not under
`src/`).  Per the spec it bundles the tokenized question, the tokenized
passage, the answer value, the original passage text, the token-index
answer span when one exists, and additional metadata.  Token indexers are
an external feature-mapping capability not touched by any claim and are
omitted. -/
structure Instance where
  question_tokens : List Token
  passage_tokens : List Token
  answer : String
  passage_text : String
  span : Option (Nat × Nat)
  additional_metadata : Option String
deriving DecidableEq, Repr

/-- Modelled from the spec: the alignment step of the utility module (not
under `src/`) maps the answer onto token-span positions in the (possibly
truncated) passage, range-checking after truncation; when the answer is
not recoverable it substitutes the last valid token position as a fallback
placeholder span, and an empty passage yields no span at all. -/
def alignSpan (passage_tokens : List Token) (answer : String) : Option (Nat × Nat) :=
  match passage_tokens.findIdx? (fun t => t.text = answer) with
  | some i => some (i, i)
  | none =>
    if passage_tokens.isEmpty then none
    else some (passage_tokens.length - 1, passage_tokens.length - 1)

/-- Modelled from the spec: `util.make_reading_comprehension_instance` is
repository code not under `src/`; it constructs the TrainingExample from
its arguments, attaching the aligned span.  It always produces an example
(the skip decision documented by the spec belonged to `text_to_instance`,
not to this constructor). -/
def make_reading_comprehension_instance (question_tokens passage_tokens : List Token)
    (answer : String) (passage_text : String)
    (additional_metadata : Option String) : Instance :=
  { question_tokens := question_tokens
    passage_tokens := passage_tokens
    answer := answer
    passage_text := passage_text
    span := alignSpan passage_tokens answer
    additional_metadata := additional_metadata }

/-- Configuration of `SquadReader.__init__` (squad.py lines 56-70).  The
tokenizer is the external collaborator stored as `self._tokenizer`; the
token indexers are omitted (external, untouched by any claim); `lazy` is
stored by the superclass and unused in `_read`.  Length limits are Python
`Optional[int]` configured as positive integers per the spec. -/
structure SquadReader where
  tokenizer : String → List Token
  lazy : Bool
  passage_length_limit : Option Nat
  question_length_limit : Option Nat
  skip_invalid_examples : Bool

/-- Python truthiness resolution of `passage_tokens` in
`text_to_instance` (squad.py lines 132-133): `if not passage_tokens:
passage_tokens = self._tokenizer.tokenize(passage_text)`.  `not x` is true
for Python `None` and for the empty list alike. -/
def resolvePassageTokens (r : SquadReader) (passage_text : String)
    (passage_tokens : Option (List Token)) : List Token :=
  match passage_tokens with
  | none => r.tokenizer passage_text
  | some ts => if ts.isEmpty then r.tokenizer passage_text else ts

/-- Truncation of the passage tokens (squad.py lines 135-136):
`passage_tokens[: self.passage_length_limit]` when the limit is set. -/
def truncatePassage (r : SquadReader) (ts : List Token) : List Token :=
  match r.passage_length_limit with
  | some n => ts.take n
  | none => ts

/-- Truncation of the question tokens (squad.py lines 137-138). -/
def truncateQuestion (r : SquadReader) (ts : List Token) : List Token :=
  match r.question_length_limit with
  | some n => ts.take n
  | none => ts

/-- `SquadReader.text_to_instance` (squad.py lines 122-149): resolves the
passage tokens by truthiness, always tokenizes the question, applies the
configured length limits, and unconditionally returns the instance built
by `util.make_reading_comprehension_instance`.  The Python return type is
`Optional[Instance]`, hence the `Option`; the body has no `return None`
path (the span/skip logic of the original reader was removed — "The
original answer is filtered out"). -/
def text_to_instance (r : SquadReader) (question_text passage_text : String)
    (answer : String) (passage_tokens : Option (List Token))
    (additional_metadata : Option String) : Option Instance :=
  let passage_tokens := resolvePassageTokens r passage_text passage_tokens
  let question_tokens := r.tokenizer question_text
  let passage_tokens := truncatePassage r passage_tokens
  let question_tokens := truncateQuestion r question_tokens
  some (make_reading_comprehension_instance question_tokens passage_tokens
    answer passage_text additional_metadata)

/-- Translation of the Python method chain `question.strip()` followed by
`.replace("\n", "")` (squad.py line 90): leading and trailing whitespace
is removed, then every remaining newline character is deleted (replacing
each occurrence of `"\n"` by the empty string deletes exactly the newline
characters). -/
def normalizeQuestion (q : String) : String :=
  String.mk (((q.data.dropWhile Char.isWhitespace).reverse.dropWhile
    Char.isWhitespace).reverse.filter (fun c => c ≠ '\n'))

/-- The list comprehension `[json.loads(line) for line in
open(file_path).readlines()]` (squad.py line 82): every line is parsed in
order and the first parse failure propagates as an exception aborting the
whole comprehension.  `json.loads` is the external JSON parser, passed in
as `parse`. -/
def loadRaw (parse : String → Except String Record) :
    List String → Except String (List Record)
  | [] => .ok []
  | line :: rest => do
    let x ← parse line
    let xs ← loadRaw parse rest
    pure (x :: xs)

/-- `SquadReader._read` (squad.py lines 72-98): parses every line of the
file as JSON, extracts the four columns each truncated to the first 100
entries, then for each zipped record tokenizes the passage, normalizes the
question, calls `text_to_instance` and yields the instance when it is not
`None`.  The generator is embedded as the list of yielded instances; a
raised exception is the `Except.error` case. -/
def _read (r : SquadReader) (parse : String → Except String Record)
    (lines : List String) : Except String (List Instance) :=
  match loadRaw parse lines with
  | .error e => .error e
  | .ok raw =>
    let answer := (raw.map Record.answer).take 100
    let passage := (raw.map Record.passage).take 100
    let question := (raw.map Record.question).take 100
    let title := (raw.map Record.title).take 100
    .ok <| ((passage.zip (question.zip (title.zip answer))).filterMap
      (fun x =>
        let tokenized_paragraph := r.tokenizer x.1
        let question_text := normalizeQuestion x.2.1
        text_to_instance r question_text x.1 x.2.2.2 (some tokenized_paragraph) none))

/-- The instance `_read` builds for one record: question normalized then
tokenized and truncated, passage tokenized once and truncated, answer and
passage text passed through. -/
def recordInstance (r : SquadReader) (x : Record) : Instance :=
  make_reading_comprehension_instance
    (truncateQuestion r (r.tokenizer (normalizeQuestion x.question)))
    (truncatePassage r (r.tokenizer x.passage))
    x.answer x.passage none

/-- A concrete stand-in tokenizer for witness evaluation (the real
tokenizer, SpacyTokenizer, is an external collaborator): one token per
character, skipping spaces. -/
def charTokenize (s : String) : List Token :=
  (s.data.filter (fun c => c ≠ ' ')).map (fun c => { text := String.mk [c], idx := 0 })

/-- A concrete well-formed record used in closed evaluations: its answer
"b" is the second character token of its passage "a b". -/
def goodRecord : Record :=
  { answer := "b", passage := "a b", question := " q\nr ", title := "t" }

/-- A concrete stand-in for the external `json.loads` used in the closed
evaluations: the single well-formed line "good" parses to `goodRecord`;
every other line is malformed JSON and raises a ParseError. -/
def exParse (line : String) : Except String Record :=
  if line = "good" then .ok goodRecord else .error "ParseError"

/-- A concrete reader configuration with no length limits. -/
def exReader : SquadReader :=
  { tokenizer := charTokenize
    lazy := false
    passage_length_limit := none
    question_length_limit := none
    skip_invalid_examples := false }

/-- A concrete reader configuration with both length limits set to 1. -/
def limReader : SquadReader :=
  { tokenizer := charTokenize
    lazy := false
    passage_length_limit := some 1
    question_length_limit := some 1
    skip_invalid_examples := false }

/-- A concrete reader configuration with `skip_invalid_examples` enabled
and a passage length limit of 1, so that a gold answer beyond the first
token falls entirely outside the truncated passage. -/
def skipReader : SquadReader :=
  { tokenizer := charTokenize
    lazy := false
    passage_length_limit := some 1
    question_length_limit := none
    skip_invalid_examples := true }

/-! Helper lemmas shared by the claim theorems. -/

theorem findIdx?_lt_length {α} (p : α → Bool) :
    ∀ (l : List α) (i : Nat), l.findIdx? p = some i → i < l.length := by
  intro l
  induction l with
  | nil => intro i h; simp [List.findIdx?] at h
  | cons a t ih =>
    intro i h
    rw [List.findIdx?_cons] at h
    by_cases hp : p a
    · simp [hp] at h
      subst h
      simp
    · simp [hp] at h
      obtain ⟨j, hj, rfl⟩ := h
      have := ih j hj
      simp
      omega

theorem alignSpan_lt_length (ts : List Token) (a : String) (s e : Nat)
    (h : alignSpan ts a = some (s, e)) :
    s < ts.length ∧ e < ts.length := by
  unfold alignSpan at h
  cases hf : ts.findIdx? (fun t => t.text = a) with
  | some i =>
    rw [hf] at h
    have hi := findIdx?_lt_length _ ts i hf
    cases h
    exact ⟨hi, hi⟩
  | none =>
    rw [hf] at h
    by_cases he : ts.isEmpty
    · simp [he] at h
    · simp [he] at h
      obtain ⟨hs, hee⟩ := h
      have hlen : 0 < ts.length := by
        cases ts with
        | nil => simp at he
        | cons x xs => simp
      subst hs hee
      constructor <;> omega

theorem resolvePassageTokens_tokenized (r : SquadReader) (p : String) :
    resolvePassageTokens r p (some (r.tokenizer p)) = r.tokenizer p := by
  unfold resolvePassageTokens
  by_cases h : (r.tokenizer p).isEmpty <;> simp [h]

theorem text_to_instance_record (r : SquadReader) (x : Record) :
    text_to_instance r (normalizeQuestion x.question) x.passage x.answer
      (some (r.tokenizer x.passage)) none = some (recordInstance r x) := by
  unfold text_to_instance recordInstance
  rw [resolvePassageTokens_tokenized]

theorem read_ok (r : SquadReader) (parse : String → Except String Record)
    (lines : List String) (raw : List Record)
    (h : loadRaw parse lines = .ok raw) :
    _read r parse lines = .ok ((raw.take 100).map (recordInstance r)) := by
  unfold _read
  rw [h]
  dsimp only
  congr 1
  have hmt : ∀ (f : Record → String),
      (raw.map f).take 100 = (raw.take 100).map f := by
    intro f
    exact (List.map_take f raw 100).symm
  rw [hmt Record.answer, hmt Record.passage, hmt Record.question, hmt Record.title]
  rw [List.zip_map' Record.title Record.answer, List.zip_map' Record.question,
    List.zip_map' Record.passage]
  rw [List.filterMap_map]
  have : ∀ x : Record,
      (text_to_instance r (normalizeQuestion x.question) x.passage x.answer
        (some (r.tokenizer x.passage)) none) = some (recordInstance r x) := fun x =>
    text_to_instance_record r x
  calc ((raw.take 100).filterMap fun x =>
          text_to_instance r (normalizeQuestion x.question) x.passage x.answer
            (some (r.tokenizer x.passage)) none)
      = (raw.take 100).filterMap (fun x => some (recordInstance r x)) := by
        apply List.filterMap_congr
        intro x _
        exact this x
    _ = (raw.take 100).map (recordInstance r) :=
        congrFun (List.filterMap_eq_map (recordInstance r)) (raw.take 100)

theorem loadRaw_error_mem (parse : String → Except String Record) :
    ∀ (lines : List String) (line : String) (e : String),
      line ∈ lines → parse line = .error e →
      ∃ e', loadRaw parse lines = .error e' := by
  intro lines
  induction lines with
  | nil => intro line e h; simp at h
  | cons l t ih =>
    intro line e hmem hperr
    rcases List.mem_cons.mp hmem with rfl | hmem
    · exact ⟨e, by simp only [loadRaw]; rw [hperr]; rfl⟩
    · cases hl : parse l with
      | error e'' => exact ⟨e'', by simp only [loadRaw]; rw [hl]; rfl⟩
      | ok v =>
        obtain ⟨e', he'⟩ := ih line e hmem hperr
        exact ⟨e', by simp only [loadRaw]; rw [hl, he']; rfl⟩

theorem read_ok_inv (r : SquadReader) (parse : String → Except String Record)
    (lines : List String) (out : List Instance)
    (h : _read r parse lines = .ok out) :
    ∃ raw, loadRaw parse lines = .ok raw ∧
      out = (raw.take 100).map (recordInstance r) := by
  cases hl : loadRaw parse lines with
  | error e =>
    exfalso
    unfold _read at h
    rw [hl] at h
    exact Except.noConfusion h
  | ok raw =>
    refine ⟨raw, rfl, ?_⟩
    have := read_ok r parse lines raw hl
    rw [h] at this
    exact Except.ok.inj this

theorem loadRaw_good_replicate :
    ∀ n, loadRaw exParse (List.replicate n "good") = .ok (List.replicate n goodRecord) := by
  intro n
  induction n with
  | zero => rfl
  | succ m ih =>
    rw [List.replicate_succ, List.replicate_succ]
    simp only [loadRaw]
    rw [ih]
    rfl

theorem truncatePassage_some (r : SquadReader) (ts : List Token) (L : Nat)
    (h : r.passage_length_limit = some L) :
    truncatePassage r ts = ts.take L := by
  unfold truncatePassage
  rw [h]

theorem truncatePassage_none (r : SquadReader) (ts : List Token)
    (h : r.passage_length_limit = none) :
    truncatePassage r ts = ts := by
  unfold truncatePassage
  rw [h]

theorem truncateQuestion_some (r : SquadReader) (ts : List Token) (L : Nat)
    (h : r.question_length_limit = some L) :
    truncateQuestion r ts = ts.take L := by
  unfold truncateQuestion
  rw [h]

theorem truncateQuestion_none (r : SquadReader) (ts : List Token)
    (h : r.question_length_limit = none) :
    truncateQuestion r ts = ts := by
  unfold truncateQuestion
  rw [h]

theorem recordInstance_passage_tokens (r : SquadReader) (x : Record) :
    (recordInstance r x).passage_tokens = truncatePassage r (r.tokenizer x.passage) := rfl

theorem recordInstance_question_tokens (r : SquadReader) (x : Record) :
    (recordInstance r x).question_tokens =
      truncateQuestion r (r.tokenizer (normalizeQuestion x.question)) := rfl

/-! The claims. -/

/-- Claim C1 (code_bug): the spec and the reader's own docstring say that
`text_to_instance` returns nothing when the answer is entirely
unrecoverable in the truncated passage and `skip_invalid_examples` is
enabled.  The code has no such path: it stores the flag, never consults
it, and unconditionally returns the constructed example.  Evaluated at the
failing input — `skip_invalid_examples` enabled, passage length limit 1,
gold answer "c" lying entirely beyond the one-token truncated passage of
"a b c" — `text_to_instance` still returns an example. -/
theorem C1_never_skips :
    skipReader.skip_invalid_examples = true ∧
    (text_to_instance skipReader "q" "a b c" "c"
      (some (charTokenize "a b c")) none).isSome = true :=
  ⟨rfl, rfl⟩

/-- Claim C2 (counterexample): a malformed-JSON line amid otherwise valid
lines does not get skipped — the whole read raises a parse error and no
example is produced for any line, refuting the claim that the other lines
still produce examples and the read completes without raising. -/
theorem C2_counterexample :
    exParse "bad" = .error "ParseError" ∧
    exParse "good" = .ok goodRecord ∧
    _read exReader exParse ["good", "bad", "good"] = .error "ParseError" :=
  ⟨rfl, rfl, rfl⟩

/-- Claim C2 (amended): for every input file containing a malformed-JSON
line, `_read` raises the parse error and aborts the entire read before
producing any example; a per-line parse failure always aborts the overall
read. -/
theorem C2_malformed_aborts (r : SquadReader) (parse : String → Except String Record)
    (lines : List String) (line e : String)
    (hmem : line ∈ lines) (herr : parse line = .error e) :
    ∃ e', _read r parse lines = .error e' := by
  obtain ⟨e', he'⟩ := loadRaw_error_mem parse lines line e hmem herr
  refine ⟨e', ?_⟩
  unfold _read
  rw [he']

/-- Witness for C2 (amended) at a concrete malformed file. -/
theorem C2_malformed_aborts_witness :
    ∃ e', _read exReader exParse ["good", "bad"] = .error e' :=
  C2_malformed_aborts exReader exParse ["good", "bad"] "bad" "ParseError"
    (by simp) rfl

/-- Claim C3 (counterexample): a well-formed file of 101 records yields
only 100 examples, refuting "yields one example per record" and
"processes every record of the file". -/
theorem C3_counterexample :
    _read exReader exParse (List.replicate 101 "good") =
      .ok (List.replicate 100 (recordInstance exReader goodRecord)) ∧
    (List.replicate 101 "good").length ≠
      (List.replicate 100 (recordInstance exReader goodRecord)).length := by
  constructor
  · rw [read_ok exReader exParse _ _ (loadRaw_good_replicate 101)]
    rw [List.take_replicate, List.map_replicate]
    norm_num
  · simp

/-- Claim C3 (amended): for every well-formed JSONL input file, `_read`
processes the first `min 100 n` of the file's `n` records in file order,
tokenizes each processed record's passage, and yields exactly one example
per processed record, so the produced sequence is finite with exactly
`min 100 n` examples. -/
theorem C3_first_hundred (r : SquadReader) (parse : String → Except String Record)
    (lines : List String) (raw : List Record)
    (h : loadRaw parse lines = .ok raw) :
    ∃ out, _read r parse lines = .ok out ∧
      out = (raw.take 100).map (recordInstance r) ∧
      out.length = min 100 raw.length := by
  refine ⟨_, read_ok r parse lines raw h, rfl, ?_⟩
  simp [List.length_take]

/-- Witness for C3 (amended) at a concrete one-record file. -/
theorem C3_first_hundred_witness :
    ∃ out, _read exReader exParse ["good"] = .ok out ∧
      out = ([goodRecord].take 100).map (recordInstance exReader) ∧
      out.length = min 100 [goodRecord].length :=
  C3_first_hundred exReader exParse ["good"] [goodRecord] rfl

/-- Claim C4 (confirmed): records after the hundredth never contribute an
example — for any two well-formed files whose first 100 records agree, the
produced example sequences are identical, so only the first 100 records of
a longer file ever contribute. -/
theorem C4_suffix_irrelevant (r : SquadReader) (parse : String → Except String Record)
    (lines₁ lines₂ : List String) (raw₁ raw₂ : List Record)
    (h₁ : loadRaw parse lines₁ = .ok raw₁) (h₂ : loadRaw parse lines₂ = .ok raw₂)
    (hpre : raw₁.take 100 = raw₂.take 100) :
    _read r parse lines₁ = _read r parse lines₂ := by
  rw [read_ok r parse lines₁ raw₁ h₁, read_ok r parse lines₂ raw₂ h₂, hpre]

/-- Witness for C4: a 101-record file produces exactly the examples of its
first-100-record prefix file. -/
theorem C4_suffix_irrelevant_witness :
    _read exReader exParse (List.replicate 101 "good") =
      _read exReader exParse (List.replicate 100 "good") :=
  C4_suffix_irrelevant exReader exParse
    (List.replicate 101 "good") (List.replicate 100 "good")
    (List.replicate 101 goodRecord) (List.replicate 100 goodRecord)
    (loadRaw_good_replicate 101) (loadRaw_good_replicate 100)
    (by rw [List.take_replicate, List.take_replicate]; norm_num)

/-- Claim C5 (confirmed): every example `_read` yields comes from a record
whose tokenized passage and question respect the configured length limits:
with a limit configured the token sequence has length at most the limit
and is a prefix of the untruncated tokenization; with no limit configured
it is the untruncated tokenization unchanged. -/
theorem C5_limits (r : SquadReader) (parse : String → Except String Record)
    (lines : List String) (out : List Instance) (inst : Instance)
    (h : _read r parse lines = .ok out) (hmem : inst ∈ out) :
    ∃ x : Record,
      inst = recordInstance r x ∧
      (∀ L, r.passage_length_limit = some L →
        inst.passage_tokens.length ≤ L ∧
        inst.passage_tokens <+: r.tokenizer x.passage) ∧
      (r.passage_length_limit = none →
        inst.passage_tokens = r.tokenizer x.passage) ∧
      (∀ L, r.question_length_limit = some L →
        inst.question_tokens.length ≤ L ∧
        inst.question_tokens <+: r.tokenizer (normalizeQuestion x.question)) ∧
      (r.question_length_limit = none →
        inst.question_tokens = r.tokenizer (normalizeQuestion x.question)) := by
  obtain ⟨raw, hraw, hout⟩ := read_ok_inv r parse lines out h
  subst hout
  obtain ⟨x, hx, rfl⟩ := List.mem_map.mp hmem
  refine ⟨x, rfl, ?_, ?_, ?_, ?_⟩
  · intro L hL
    rw [recordInstance_passage_tokens, truncatePassage_some r _ L hL]
    constructor
    · rw [List.length_take]
      exact Nat.min_le_left _ _
    · exact List.take_prefix L _
  · intro hL
    rw [recordInstance_passage_tokens, truncatePassage_none r _ hL]
  · intro L hL
    rw [recordInstance_question_tokens, truncateQuestion_some r _ L hL]
    constructor
    · rw [List.length_take]
      exact Nat.min_le_left _ _
    · exact List.take_prefix L _
  · intro hL
    rw [recordInstance_question_tokens, truncateQuestion_none r _ hL]

/-- Witness for C5 at a concrete file read with both limits set to 1. -/
theorem C5_limits_witness :
    ∃ x : Record,
      recordInstance limReader goodRecord = recordInstance limReader x ∧
      (∀ L, limReader.passage_length_limit = some L →
        (recordInstance limReader goodRecord).passage_tokens.length ≤ L ∧
        (recordInstance limReader goodRecord).passage_tokens <+:
          limReader.tokenizer x.passage) ∧
      (limReader.passage_length_limit = none →
        (recordInstance limReader goodRecord).passage_tokens =
          limReader.tokenizer x.passage) ∧
      (∀ L, limReader.question_length_limit = some L →
        (recordInstance limReader goodRecord).question_tokens.length ≤ L ∧
        (recordInstance limReader goodRecord).question_tokens <+:
          limReader.tokenizer (normalizeQuestion x.question)) ∧
      (limReader.question_length_limit = none →
        (recordInstance limReader goodRecord).question_tokens =
          limReader.tokenizer (normalizeQuestion x.question)) :=
  C5_limits limReader exParse ["good"] [recordInstance limReader goodRecord]
    (recordInstance limReader goodRecord) rfl (by simp)

/-- Claim C6 (counterexample): when `passage_tokens` is supplied as the
empty sequence, the supplied sequence is not used as-is — the passage text
is tokenized anyway — refuting "the passage text is tokenized if and only
if `passage_tokens` is not supplied". -/
theorem C6_counterexample :
    (text_to_instance exReader "q" "ab" "x" (some []) none).map
        Instance.passage_tokens ≠ some [] ∧
    (text_to_instance exReader "q" "ab" "x" (some []) none).map
        Instance.passage_tokens = some (exReader.tokenizer "ab") :=
  ⟨by decide, rfl⟩

/-- Claim C6 (amended): the passage text is tokenized if and only if
`passage_tokens` is not supplied or is supplied as the empty sequence; a
supplied non-empty token sequence is used as-is, and the question text is
always tokenized. -/
theorem C6_tokenize_conditions (r : SquadReader) (q p a : String)
    (ts : List Token) (md : Option String) :
    (ts ≠ [] → text_to_instance r q p a (some ts) md =
      some (make_reading_comprehension_instance
        (truncateQuestion r (r.tokenizer q)) (truncatePassage r ts) a p md)) ∧
    (text_to_instance r q p a none md =
      some (make_reading_comprehension_instance
        (truncateQuestion r (r.tokenizer q))
        (truncatePassage r (r.tokenizer p)) a p md)) ∧
    (text_to_instance r q p a (some []) md =
      some (make_reading_comprehension_instance
        (truncateQuestion r (r.tokenizer q))
        (truncatePassage r (r.tokenizer p)) a p md)) := by
  refine ⟨?_, rfl, rfl⟩
  intro hne
  cases ts with
  | nil => exact absurd rfl hne
  | cons t ts => rfl

/-- Witness for C6 (amended) at a concrete supplied non-empty sequence. -/
theorem C6_tokenize_conditions_witness :
    text_to_instance exReader "q" "p" "a" (some [⟨"z", 0⟩]) none =
      some (make_reading_comprehension_instance
        (truncateQuestion exReader (exReader.tokenizer "q"))
        (truncatePassage exReader [⟨"z", 0⟩]) "a" "p" none) :=
  (C6_tokenize_conditions exReader "q" "p" "a" [⟨"z", 0⟩] none).1 (by decide)

/-- Claim C7 (confirmed, spec-modelled): every example yielded by the
reader has span indices, when present, that index validly into that
example's (possibly truncated) passage token sequence. -/
theorem C7_span_valid (r : SquadReader) (parse : String → Except String Record)
    (lines : List String) (out : List Instance) (inst : Instance) (s e : Nat)
    (h : _read r parse lines = .ok out) (hmem : inst ∈ out)
    (hspan : inst.span = some (s, e)) :
    s < inst.passage_tokens.length ∧ e < inst.passage_tokens.length := by
  obtain ⟨raw, hraw, hout⟩ := read_ok_inv r parse lines out h
  subst hout
  obtain ⟨x, hx, rfl⟩ := List.mem_map.mp hmem
  exact alignSpan_lt_length ((recordInstance r x).passage_tokens) x.answer s e hspan

/-- Witness for C7 at a concrete read whose single example carries span
(1, 1) into a two-token passage. -/
theorem C7_span_valid_witness :
    1 < (recordInstance exReader goodRecord).passage_tokens.length ∧
    1 < (recordInstance exReader goodRecord).passage_tokens.length :=
  C7_span_valid exReader exParse ["good"] [recordInstance exReader goodRecord]
    (recordInstance exReader goodRecord) 1 1 rfl (by simp) rfl

/-- Claim C8 (confirmed): reading the same file content twice under the
same configuration yields identical example sequences in identical order —
the embedded read is a pure function of the configuration, the line parser
and the file content. -/
theorem C8_deterministic (r₁ r₂ : SquadReader)
    (parse₁ parse₂ : String → Except String Record)
    (lines₁ lines₂ : List String)
    (hr : r₁ = r₂) (hp : parse₁ = parse₂) (hl : lines₁ = lines₂) :
    _read r₁ parse₁ lines₁ = _read r₂ parse₂ lines₂ := by
  subst hr hp hl
  rfl

/-- Witness for C8 at a concrete repeated read. -/
theorem C8_deterministic_witness :
    _read exReader exParse ["good"] = _read exReader exParse ["good"] :=
  C8_deterministic exReader exReader exParse exParse ["good"] ["good"] rfl rfl rfl

/-- Claim C9 (confirmed): for every record processed by `_read`, the
question string is stripped of leading and trailing whitespace and of
every newline character before tokenization, while the passage string is
tokenized and stored in the example unmodified. -/
theorem C9_question_normalized (r : SquadReader)
    (parse : String → Except String Record)
    (lines : List String) (raw : List Record) (out : List Instance)
    (i : Nat) (inst : Instance) (x : Record)
    (hraw : loadRaw parse lines = .ok raw) (hout : _read r parse lines = .ok out)
    (hi : out[i]? = some inst) (hx : raw[i]? = some x) :
    inst.question_tokens =
      truncateQuestion r (r.tokenizer (normalizeQuestion x.question)) ∧
    inst.passage_text = x.passage ∧
    inst.passage_tokens = truncatePassage r (r.tokenizer x.passage) := by
  have h := read_ok r parse lines raw hraw
  rw [hout] at h
  have hout' := Except.ok.inj h
  rw [hout', List.getElem?_map] at hi
  cases ht : (raw.take 100)[i]? with
  | none =>
    rw [ht] at hi
    exact absurd hi (by simp)
  | some y =>
    rw [ht] at hi
    have hiy : inst = recordInstance r y := by
      have := Option.some.inj hi
      exact this.symm
    have hy : raw[i]? = some y := by
      have hlt : i < 100 := by
        by_contra hge
        have hnone : (raw.take 100)[i]? = none := by
          apply List.getElem?_eq_none
          rw [List.length_take]
          omega
        rw [hnone] at ht
        exact Option.noConfusion ht
      rw [List.getElem?_take_of_lt hlt] at ht
      exact ht
    have hxy : y = x := Option.some.inj (hy.symm.trans hx)
    subst hxy
    subst hiy
    exact ⟨rfl, rfl, rfl⟩

/-- Witness for C9 at a concrete one-record file whose question carries
leading and trailing whitespace and an interior newline. -/
theorem C9_question_normalized_witness :
    (recordInstance exReader goodRecord).question_tokens =
      truncateQuestion exReader
        (exReader.tokenizer (normalizeQuestion goodRecord.question)) ∧
    (recordInstance exReader goodRecord).passage_text = goodRecord.passage ∧
    (recordInstance exReader goodRecord).passage_tokens =
      truncatePassage exReader (exReader.tokenizer goodRecord.passage) :=
  C9_question_normalized exReader exParse ["good"] [goodRecord]
    [recordInstance exReader goodRecord] 0
    (recordInstance exReader goodRecord) goodRecord rfl rfl rfl rfl

/-- Claim C10 (confirmed): when `passage_tokens` is supplied as the empty
sequence, the supplied sequence is discarded and `passage_text` is
re-tokenized, exactly as when `passage_tokens` is absent — the presence
check is by truthiness. -/
theorem C10_empty_retokenized (r : SquadReader) (q p a : String) (md : Option String) :
    text_to_instance r q p a (some []) md = text_to_instance r q p a none md ∧
    (text_to_instance r q p a (some []) md).map Instance.passage_tokens =
      some (truncatePassage r (r.tokenizer p)) :=
  ⟨rfl, rfl⟩

end BinQua
